import Mathlib

/-!
Verification of the core of `src/spotifyctl.c` (a polybar spotify helper):
the template formatter `format_output` with its truncation logic, and the
metadata field extractors `get_song_title_from_metadata` /
`get_song_artist_from_metadata`.

Modelling conventions:
* C strings are `Str := List Char`; a possibly-`NULL` `char*` argument is an
  `Option Str` with `none` standing for the null pointer.
* C `int` length limits are `Nat`, with `INT_MAX` denoting "no limit"
  (exactly as `spotifyctl.c` uses `INT_MAX` as the unbounded default).
* Length arithmetic that C performs in `int` (the estimated total length,
  which can be negative) is carried out in `Int`.
* Executions whose C behaviour is undefined (passing a null pointer into
  `strlen` or into a replacement) are modelled by the result `FormatOut.ub`.
* `exit(1)` is modelled by `FormatOut.fatal msg reported`, where `reported`
  records whether the diagnostic message was printed (the C code prints it
  only when `SUPPRESS_ERRORS` is unset).
* The helper functions `str_trunc`, `str_replace_all`, `num_of_matches` and
  the DBus iterator helpers are declared in `utils.h` but their definitions
  (`utils.c`) are not among the sources; they are modelled from the spec, and
  each such definition is marked `Modelled from the spec:`.
-/

abbrev Str := List Char

/-- `INT_MAX` for 32-bit `int`; `spotifyctl.c` uses it as the "unbounded"
default for all three length limits. -/
def INT_MAX : Nat := 2147483647

/-- The artist token literal `TOKEN_ARTIST` = `"%artist%"` from spotifyctl.c. -/
def TOKEN_ARTIST : Str := "%artist%".toList

/-- The title token literal `TOKEN_TITLE` = `"%title%"` from spotifyctl.c. -/
def TOKEN_TITLE : Str := "%title%".toList

/-- `DEFAULT_PLACEHOLDER` = `"Spotify"` from spotifyctl.c. -/
def DEFAULT_PLACEHOLDER : Str := "Spotify".toList

/-- `METADATA_TITLE_KEY` from spotifyctl.c. -/
def METADATA_TITLE_KEY : Str := "xesam:title".toList

/-- `METADATA_ARTIST_KEY` from spotifyctl.c. -/
def METADATA_ARTIST_KEY : Str := "xesam:artist".toList

/-- Diagnostic printed when truncating the title fails (spotifyctl.c, lines 210-213). -/
def ERR_TRUNC_TITLE : Str :=
  "Failed to truncate title. Please make sure the trunc string is smaller than the max title length.\n".toList

/-- Diagnostic printed when truncating the artist fails (spotifyctl.c, lines 220-223). -/
def ERR_TRUNC_ARTIST : Str :=
  "Failed to truncate artist. Please make sure the trunc string is smaller than the max artist length.\n".toList

/-- Diagnostic printed when truncating the whole output fails (spotifyctl.c, lines 235-238). -/
def ERR_TRUNC_OUTPUT : Str :=
  "Failed to truncate output. Please make sure the trunc string is smaller than the max output length.\n".toList

/-- Modelled from the spec: the truncation algorithm `truncate(s, max_len,
marker)` implemented by `str_trunc` (declared in utils.h; utils.c is not among
the sources). If `max_len` is unbounded (`INT_MAX`) or `s` already fits, `s`
is returned unchanged; if the marker alone does not fit in the budget the call
fails (`none`, the C function returns `NULL`); otherwise the first
`max_len - len(marker)` characters of `s` followed by the whole marker. -/
def str_trunc (s : Str) (max_len : Nat) (trunc : Str) : Option Str :=
  if max_len = INT_MAX ∨ s.length ≤ max_len then some s
  else if max_len < trunc.length then none
  else some (s.take (max_len - trunc.length) ++ trunc)

/-- Fuel-indexed left-to-right scanner for `str_replace_all`; the fuel is an
upper bound on the remaining string length, so it never runs out when started
at `s.length` (each step consumes one unit of fuel and at least one
character). -/
def str_replace_all_fuel : Nat → Str → Str → Str → Str
  | _, [], _, _ => []
  | 0, s, _, _ => s
  | n + 1, c :: rest, tok, repl =>
    if tok.isPrefixOf (c :: rest) ∧ tok ≠ [] then
      repl ++ str_replace_all_fuel n ((c :: rest).drop tok.length) tok repl
    else
      c :: str_replace_all_fuel n rest tok repl

/-- Modelled from the spec: `str_replace_all(orig, tok, repl)` (declared in
utils.h; utils.c is not among the sources): literal, all-occurrences,
left-to-right, non-recursive token replacement — after emitting a replacement
the scan resumes after the matched token and never rescans the replacement
text within the same pass. -/
def str_replace_all (s tok repl : Str) : Str :=
  str_replace_all_fuel s.length s tok repl

/-- Fuel-indexed scanner for `num_of_matches`, mirroring
`str_replace_all_fuel`. -/
def num_of_matches_fuel : Nat → Str → Str → Nat
  | _, [], _ => 0
  | 0, _, _ => 0
  | n + 1, c :: rest, tok =>
    if tok.isPrefixOf (c :: rest) ∧ tok ≠ [] then
      1 + num_of_matches_fuel n ((c :: rest).drop tok.length) tok
    else
      num_of_matches_fuel n rest tok

/-- Modelled from the spec: `num_of_matches(s, tok)` (declared in utils.h;
utils.c is not among the sources): the number of (left-to-right,
non-overlapping) occurrences of the token `tok` in `s`. -/
def num_of_matches (s tok : Str) : Nat :=
  num_of_matches_fuel s.length s tok

/-- `TOTAL_UNTRUNC_LENGTH` as computed by `format_output` (spotifyctl.c,
lines 188-199): the length of the template plus, for each token, the number of
its occurrences times the length difference caused by one replacement.
Computed in `Int` since the differences can be negative. -/
def TOTAL_UNTRUNC_LENGTH (artist title format : Str) : Int :=
  (format.length : Int) +
    (num_of_matches format TOKEN_ARTIST : Int) *
      ((artist.length : Int) - (TOKEN_ARTIST.length : Int)) +
    (num_of_matches format TOKEN_TITLE : Int) *
      ((title.length : Int) - (TOKEN_TITLE.length : Int))

/-- Outcome of one `format_output` call: a returned string, a fatal
`exit(1)` carrying the diagnostic text and whether it was printed, or
undefined behaviour (a null `char*` reaching `strlen` or a replacement). -/
inductive FormatOut where
  | ok (out : Str)
  | fatal (msg : Str) (reported : Bool)
  | ub
deriving DecidableEq, Repr

/-- `format_output` from spotifyctl.c (lines 166-256), translated
line-by-line.  `artist` and `title` are `Option Str` because `get_status`
passes the raw extraction results, which are `NULL` when a field is missing;
a null pointer reaches `strlen` immediately, which is undefined behaviour
(`FormatOut.ub`).  `suppress_errors` is the global `SUPPRESS_ERRORS` flag.
Note the faithful asymmetry of the source: when truncating the *title* fails,
the `exit(1)` sits inside the `if (!SUPPRESS_ERRORS)` block, so with
suppression on the code continues with a `NULL` `trunc_title`, which is then
passed as the replacement string into `str_replace_all` (undefined
behaviour); for the artist and the total output the `exit(1)` is outside the
block and always fires. -/
def format_output (artist title : Option Str)
    (max_artist_length max_title_length max_length : Nat)
    (format trunc : Str) (suppress_errors : Bool) : FormatOut :=
  match artist, title with
  | some artist, some title =>
    if artist.length = 0 ∧ title.length = 0 then
      .ok DEFAULT_PLACEHOLDER
    else if max_length = INT_MAX ∨
        TOTAL_UNTRUNC_LENGTH artist title format > (max_length : Int) then
      match str_trunc title max_title_length trunc with
      | none =>
        if suppress_errors then
          match str_trunc artist max_artist_length trunc with
          | none => .fatal ERR_TRUNC_ARTIST false
          | some _ => .ub
        else
          .fatal ERR_TRUNC_TITLE true
      | some trunc_title =>
        match str_trunc artist max_artist_length trunc with
        | none => .fatal ERR_TRUNC_ARTIST (!suppress_errors)
        | some trunc_artist =>
          match str_trunc
              (str_replace_all (str_replace_all format TOKEN_ARTIST trunc_artist)
                TOKEN_TITLE trunc_title)
              max_length trunc with
          | none => .fatal ERR_TRUNC_OUTPUT (!suppress_errors)
          | some out => .ok out
    else
      .ok (str_replace_all (str_replace_all format TOKEN_ARTIST artist)
            TOKEN_TITLE title)
  | _, _ => .ub

/-- The truncation branch of `format_output` (spotifyctl.c, lines 203-246),
as a standalone function: truncate the title, truncate the artist, substitute
both tokens, then truncate the whole substituted string to `max_length`. -/
def trunc_branch (artist title : Str)
    (max_artist_length max_title_length max_length : Nat)
    (format trunc : Str) (suppress_errors : Bool) : FormatOut :=
  match str_trunc title max_title_length trunc with
  | none =>
    if suppress_errors then
      match str_trunc artist max_artist_length trunc with
      | none => .fatal ERR_TRUNC_ARTIST false
      | some _ => .ub
    else
      .fatal ERR_TRUNC_TITLE true
  | some trunc_title =>
    match str_trunc artist max_artist_length trunc with
    | none => .fatal ERR_TRUNC_ARTIST (!suppress_errors)
    | some trunc_artist =>
      match str_trunc
          (str_replace_all (str_replace_all format TOKEN_ARTIST trunc_artist)
            TOKEN_TITLE trunc_title)
          max_length trunc with
      | none => .fatal ERR_TRUNC_OUTPUT (!suppress_errors)
      | some out => .ok out

/-- The non-truncation branch of `format_output` (spotifyctl.c, lines
247-253): substitute both tokens at full length, artist first. -/
def plain_branch (artist title format : Str) : FormatOut :=
  .ok (str_replace_all (str_replace_all format TOKEN_ARTIST artist)
        TOKEN_TITLE title)

/-- Modelled from the spec: the shape of a DBus metadata reply (the DBus
library is not among the sources).  A node is a primitive string, an ordered
array of nodes, a dict entry pairing a key with a value, or a variant wrapper
holding exactly one inner node — the tagged-union reply structure described
in the spec. -/
inductive Node where
  | prim (s : Str)
  | sequence (xs : List Node)
  | dictEntry (key : Str) (value : Node)
  | variant (inner : Node)

/-- Modelled from the spec: `iter_try_step_to_key` (declared in utils.h;
utils.c is not among the sources) linearly scans an array for the first dict
entry whose key equals the target and positions at its value. -/
def find_dict_key (xs : List Node) (key : Str) : Option Node :=
  match xs with
  | [] => none
  | .dictEntry k v :: rest =>
    if k = key then some v else find_dict_key rest key
  | _ :: rest => find_dict_key rest key

/-- `get_song_title_from_metadata` from spotifyctl.c (lines 93-127): unwrap a
variant, unwrap an array, scan for the `xesam:title` dict entry, unwrap its
value variant, and read the terminal node as a string; `none` (the C function
returns `NULL`) on any mismatch.  The iterator helpers it relies on are
modelled from the spec since utils.c is not among the sources. -/
def get_song_title_from_metadata (msg : Node) : Option Str :=
  match msg with
  | .variant (.sequence entries) =>
    match find_dict_key entries METADATA_TITLE_KEY with
    | some (.variant (.prim s)) => some s
    | _ => none
  | _ => none

/-- `get_song_artist_from_metadata` from spotifyctl.c (lines 129-164): the
same walk as for the title with the `xesam:artist` key, plus one further
array unwrap — the artist is stored as a list of strings and the first
element is read; an empty artist array yields `none`. -/
def get_song_artist_from_metadata (msg : Node) : Option Str :=
  match msg with
  | .variant (.sequence entries) =>
    match find_dict_key entries METADATA_ARTIST_KEY with
    | some (.variant (.sequence (.prim s :: _))) => some s
    | _ => none
  | _ => none

/-- The formatting part of `get_status` (spotifyctl.c, lines 287-291): the
raw extraction results — `NULL` when a field was missing — are passed to
`format_output` unconverted. -/
def get_status_format (msg : Node)
    (max_artist_length max_title_length max_length : Nat)
    (format trunc : Str) (suppress_errors : Bool) : FormatOut :=
  format_output (get_song_artist_from_metadata msg)
    (get_song_title_from_metadata msg)
    max_artist_length max_title_length max_length format trunc suppress_errors

/-! ### Helper lemmas about the replacement scanner -/

/-- The fuel argument of `str_replace_all_fuel` is irrelevant as long as it
dominates the string length. -/
theorem str_replace_all_fuel_congr (tok repl : Str) :
    ∀ n m s, s.length ≤ n → s.length ≤ m →
      str_replace_all_fuel n s tok repl = str_replace_all_fuel m s tok repl := by
  intro n
  induction n with
  | zero =>
    intro m s hn _
    have hs : s = [] := List.length_eq_zero.mp (Nat.le_zero.mp hn)
    subst hs
    cases m <;> rfl
  | succ n ih =>
    intro m s hn hm
    cases s with
    | nil => cases m <;> rfl
    | cons c rest =>
      cases m with
      | zero => simp at hm
      | succ m2 =>
        simp only [str_replace_all_fuel]
        have hrn : rest.length ≤ n := by
          simpa using Nat.succ_le_succ_iff.mp (by simpa using hn)
        have hrm : rest.length ≤ m2 := by
          simpa using Nat.succ_le_succ_iff.mp (by simpa using hm)
        by_cases hp : tok.isPrefixOf (c :: rest) ∧ tok ≠ []
        · rw [if_pos hp, if_pos hp]
          have htl : 1 ≤ tok.length := List.length_pos.mpr hp.2
          have hdl : ((c :: rest).drop tok.length).length ≤ rest.length := by
            simp only [List.length_drop, List.length_cons]
            omega
          exact congrArg (repl ++ ·) (ih m2 _ (le_trans hdl hrn) (le_trans hdl hrm))
        · rw [if_neg hp, if_neg hp]
          exact congrArg (c :: ·) (ih m2 rest hrn hrm)

/-- Unfolding `str_replace_all` at a match position: emit the replacement and
resume after the matched token. -/
theorem str_replace_all_cons_pos (c : Char) (rest tok repl : Str)
    (h : tok.isPrefixOf (c :: rest) ∧ tok ≠ []) :
    str_replace_all (c :: rest) tok repl =
      repl ++ str_replace_all ((c :: rest).drop tok.length) tok repl := by
  unfold str_replace_all
  simp only [List.length_cons, str_replace_all_fuel]
  rw [if_pos h]
  refine congrArg (repl ++ ·) (str_replace_all_fuel_congr tok repl _ _ _ ?_ le_rfl)
  have htl : 1 ≤ tok.length := List.length_pos.mpr h.2
  simp only [List.length_drop, List.length_cons]
  omega

/-- Unfolding `str_replace_all` at a non-match position: keep the head
character and scan the tail. -/
theorem str_replace_all_cons_neg (c : Char) (rest tok repl : Str)
    (h : ¬(tok.isPrefixOf (c :: rest) ∧ tok ≠ [])) :
    str_replace_all (c :: rest) tok repl = c :: str_replace_all rest tok repl := by
  unfold str_replace_all
  simp only [List.length_cons, str_replace_all_fuel]
  rw [if_neg h]

/-- A string without any occurrence of the token is left unchanged. -/
theorem str_replace_all_unchanged (s tok repl : Str) (h : ¬ tok <:+: s) :
    str_replace_all s tok repl = s := by
  induction s with
  | nil => rfl
  | cons c rest ih =>
    rw [str_replace_all_cons_neg c rest tok repl
      (fun hp => h ((List.isPrefixOf_iff_prefix.mp hp.1).isInfix))]
    rw [ih (fun hi => h (List.infix_cons hi))]

/-- `str_replace_all` replaces the leftmost occurrence of the token and
continues on the remainder, never rescanning the emitted replacement. -/
theorem str_replace_all_append_first (tok repl : Str) (htok : tok ≠ []) :
    ∀ a b : Str,
      (∀ i, i < a.length → ¬ tok <+: (a ++ tok ++ b).drop i) →
      str_replace_all (a ++ tok ++ b) tok repl =
        a ++ (repl ++ str_replace_all b tok repl) := by
  intro a
  induction a with
  | nil =>
    intro b _
    simp only [List.nil_append]
    cases htk : tok with
    | nil => exact absurd htk htok
    | cons tc t2 =>
      rw [← htk]
      have hpre : tok.isPrefixOf (tok ++ b) :=
        List.isPrefixOf_iff_prefix.mpr (List.prefix_append tok b)
      have hcons : tok ++ b = tc :: (t2 ++ b) := by rw [htk]; rfl
      rw [hcons] at hpre ⊢
      rw [str_replace_all_cons_pos tc (t2 ++ b) tok repl ⟨hpre, htok⟩]
      rw [← hcons, List.drop_left]
  | cons c a2 ih =>
    intro b H
    have h0 : ¬ tok <+: (c :: (a2 ++ tok ++ b)) := by
      have := H 0 (Nat.succ_pos _)
      simpa using this
    show str_replace_all (c :: (a2 ++ tok ++ b)) tok repl = _
    rw [str_replace_all_cons_neg c _ tok repl
      (fun hp => h0 (List.isPrefixOf_iff_prefix.mp hp.1))]
    rw [ih b ?_]
    · rfl
    · intro i hi
      have := H (i + 1) (by simpa using Nat.succ_lt_succ hi)
      simpa [List.drop_succ_cons] using this

/-! ### Claim theorems -/

/-- Claim C1: for every artist and title (not both empty), template and
configuration, `format_output` takes the truncation branch exactly when
`max_length` is unbounded (`INT_MAX`) or the estimated total length
`TOTAL_UNTRUNC_LENGTH` — the template length plus occurrence counts times
per-replacement length deltas — exceeds `max_length`; otherwise it takes the
plain substitution branch. -/
theorem format_output_branch_condition (a t : Str)
    (mal mtl ml : Nat) (f tr : Str) (sup : Bool)
    (h : ¬(a.length = 0 ∧ t.length = 0)) :
    format_output (some a) (some t) mal mtl ml f tr sup =
      if ml = INT_MAX ∨ TOTAL_UNTRUNC_LENGTH a t f > (ml : Int) then
        trunc_branch a t mal mtl ml f tr sup
      else
        plain_branch a t f := by
  simp only [format_output, trunc_branch, plain_branch]
  rw [if_neg h]

/-- Witness for C1 at the worked example of the spec (artist "Eminem", title
"Sing For The Moment", max length 20): the estimate 27 exceeds 20, so the
truncation branch is taken. -/
theorem format_output_branch_condition_witness :
    format_output (some "Eminem".toList) (some "Sing For The Moment".toList)
      10 10 20 "%artist%: %title%".toList "...".toList false =
      if 20 = INT_MAX ∨
          TOTAL_UNTRUNC_LENGTH "Eminem".toList "Sing For The Moment".toList
            "%artist%: %title%".toList > ((20 : Nat) : Int) then
        trunc_branch "Eminem".toList "Sing For The Moment".toList
          10 10 20 "%artist%: %title%".toList "...".toList false
      else
        plain_branch "Eminem".toList "Sing For The Moment".toList
          "%artist%: %title%".toList :=
  format_output_branch_condition _ _ _ _ _ _ _ _ (by decide)

/-- Claim C2: for a bounded budget at least as large as the marker,
`str_trunc` succeeds, the result has length `min (len s) max_len`, and when
truncation actually occurs the result is the first `max_len - len marker`
characters of `s` followed by the whole marker, hence ends with the marker. -/
theorem str_trunc_length_spec (s tr : Str) (m : Nat)
    (hb : m ≠ INT_MAX) (hm : tr.length ≤ m) :
    ∃ r, str_trunc s m tr = some r ∧ r.length = min s.length m ∧
      (m < s.length → r = s.take (m - tr.length) ++ tr ∧ tr <:+ r) := by
  unfold str_trunc
  by_cases hle : s.length ≤ m
  · rw [if_pos (Or.inr hle)]
    exact ⟨s, rfl, (Nat.min_eq_left hle).symm,
      fun hc => absurd hle (Nat.not_le.mpr hc)⟩
  · rw [if_neg (by push_neg; exact ⟨hb, Nat.lt_of_not_le hle⟩)]
    rw [if_neg (Nat.not_lt.mpr hm)]
    refine ⟨_, rfl, ?_, fun _ => ⟨rfl, List.suffix_append _ _⟩⟩
    have hsl : m < s.length := Nat.lt_of_not_le hle
    simp only [List.length_append, List.length_take]
    omega

/-- Witness for C2 at `s = "abcdef"`, `max_len = 4`, `marker = ".."`. -/
theorem str_trunc_length_spec_witness :
    ∃ r, str_trunc "abcdef".toList 4 "..".toList = some r ∧
      r.length = min "abcdef".toList.length 4 ∧
      (4 < "abcdef".toList.length →
        r = "abcdef".toList.take (4 - "..".toList.length) ++ "..".toList ∧
        "..".toList <:+ r) :=
  str_trunc_length_spec _ _ _ (by decide) (by decide)

/-- Claim C3 (code bug): with error suppression on, a failed *title*
truncation does not abort formatting and reports nothing — the `exit(1)` in
spotifyctl.c sits inside the `if (!SUPPRESS_ERRORS)` block (unlike the artist
and output cases), so execution continues with a `NULL` truncated title into
`str_replace_all`, which is undefined behaviour rather than a reported fatal
error. Evaluated at the failing input: artist "A", title "abcd",
max_title_length 2, marker "..." (the marker does not fit the title budget),
`-q` set. -/
theorem format_output_title_failure_suppressed :
    format_output (some "A".toList) (some "abcd".toList)
      10 2 INT_MAX "%artist%: %title%".toList "...".toList true = FormatOut.ub ∧
    (∀ msg rep, FormatOut.ub ≠ FormatOut.fatal msg rep) :=
  ⟨by decide, fun _ _ h => FormatOut.noConfusion h⟩

/-- Claim C4: on the truncation branch, `format_output` first truncates the
title to `max_title_length` and the artist to `max_artist_length`
independently with `str_trunc`, substitutes the artist token and then the
title token into the template, and finally truncates the whole substituted
string to `max_length` with the same algorithm. -/
theorem format_output_trunc_order (a t : Str)
    (mal mtl ml : Nat) (f tr : Str) (sup : Bool)
    (hne : ¬(a.length = 0 ∧ t.length = 0))
    (hbr : ml = INT_MAX ∨ TOTAL_UNTRUNC_LENGTH a t f > (ml : Int))
    (tt ta : Str)
    (ht : str_trunc t mtl tr = some tt)
    (ha : str_trunc a mal tr = some ta) :
    format_output (some a) (some t) mal mtl ml f tr sup =
      match str_trunc
          (str_replace_all (str_replace_all f TOKEN_ARTIST ta) TOKEN_TITLE tt)
          ml tr with
      | none => FormatOut.fatal ERR_TRUNC_OUTPUT (!sup)
      | some out => FormatOut.ok out := by
  simp only [format_output]
  rw [if_neg hne, if_pos hbr, ht, ha]

/-- Witness for C4 at the spec's example: artist "Eminem", title "Sing For
The Moment", template `"%artist%: %title%"`, max_length 20, per-field budgets
10, marker `"..."`: the title truncates to `"Sing Fo..."`, the artist stays
`"Eminem"`, and the final output is `"Eminem: Sing Fo..."`. -/
theorem format_output_trunc_order_witness :
    format_output (some "Eminem".toList) (some "Sing For The Moment".toList)
      10 10 20 "%artist%: %title%".toList "...".toList false =
      FormatOut.ok "Eminem: Sing Fo...".toList ∧
    str_trunc "Sing For The Moment".toList 10 "...".toList =
      some "Sing Fo...".toList ∧
    str_trunc "Eminem".toList 10 "...".toList = some "Eminem".toList := by
  refine ⟨?_, by decide, by decide⟩
  rw [format_output_trunc_order "Eminem".toList "Sing For The Moment".toList
    10 10 20 "%artist%: %title%".toList "...".toList false
    (by decide) (by decide) "Sing Fo...".toList "Eminem".toList
    (by decide) (by decide)]
  decide

/-- Claim C5, counterexample: when both fields are *absent* (null pointers,
as `get_status` passes them when extraction fails), `format_output` does not
return the placeholder — it calls `strlen` on a null pointer, which is
undefined behaviour. -/
theorem format_output_absent_not_placeholder :
    format_output none none 10 10 20 "%artist%: %title%".toList "...".toList
      false ≠ FormatOut.ok DEFAULT_PLACEHOLDER := by decide

/-- Claim C5, amended: for every configuration, if both artist and title are
*present and empty*, `format_output` returns exactly the placeholder
`"Spotify"`, with no truncation applied to it. -/
theorem format_output_placeholder_empty
    (mal mtl ml : Nat) (f tr : Str) (sup : Bool) :
    format_output (some []) (some []) mal mtl ml f tr sup =
      FormatOut.ok DEFAULT_PLACEHOLDER := by
  simp only [format_output]
  rw [if_pos ⟨rfl, rfl⟩]

/-- Claim C6: when `max_length` is bounded and the estimated total length
does not exceed it, `format_output` substitutes both tokens at full length
and applies no field-level truncation, whatever the per-field budgets are. -/
theorem format_output_no_trunc (a t : Str)
    (mal mtl ml : Nat) (f tr : Str) (sup : Bool)
    (hne : ¬(a.length = 0 ∧ t.length = 0))
    (hml : ml ≠ INT_MAX)
    (hest : TOTAL_UNTRUNC_LENGTH a t f ≤ (ml : Int)) :
    format_output (some a) (some t) mal mtl ml f tr sup =
      FormatOut.ok (str_replace_all (str_replace_all f TOKEN_ARTIST a)
        TOKEN_TITLE t) := by
  simp only [format_output]
  rw [if_neg hne, if_neg (by push_neg; exact ⟨hml, hest⟩)]

/-- Witness for C6 at the spec's example: artist "Eminem", title "Sing For
The Moment", max_length 30, max_artist_length 10, max_title_length 20 — the
estimate 27 fits, so the output is the full `"Eminem: Sing For The Moment"`
even though the artist budget 10 is tighter than nothing and the title value
is 19 characters against a title budget of 20. -/
theorem format_output_no_trunc_witness :
    format_output (some "Eminem".toList) (some "Sing For The Moment".toList)
      10 20 30 "%artist%: %title%".toList "...".toList false =
      FormatOut.ok "Eminem: Sing For The Moment".toList := by
  rw [format_output_no_trunc _ _ _ _ _ _ _ _ (by decide) (by decide) (by decide)]
  decide

/-- Claim C8: `str_trunc s max_len marker` fails exactly when `max_len` is
bounded, smaller than the marker length, and `s` is longer than `max_len`. -/
theorem str_trunc_fail_iff (s tr : Str) (m : Nat) :
    str_trunc s m tr = none ↔ m ≠ INT_MAX ∧ m < tr.length ∧ m < s.length := by
  unfold str_trunc
  by_cases h1 : m = INT_MAX ∨ s.length ≤ m
  · rw [if_pos h1]
    constructor
    · intro h; cases h
    · rintro ⟨hmax, -, hlen⟩
      rcases h1 with h1 | h1
      · exact absurd h1 hmax
      · exact absurd hlen (Nat.not_lt.mpr h1)
  · rw [if_neg h1]
    push_neg at h1
    by_cases h2 : m < tr.length
    · rw [if_pos h2]
      exact iff_of_true rfl ⟨h1.1, h2, h1.2⟩
    · rw [if_neg h2]
      constructor
      · intro h; cases h
      · rintro ⟨-, hc, -⟩; exact absurd hc h2

/-- Claim C9, counterexample: a token literal can survive in the non-error
output — substituting title value `"%artist%"` (artist "A") into the default
template leaves a literal `"%artist%"` in the output, because the title
replacement text is not rescanned; so the claim "no occurrence of either
token literal remains in any non-error output" is false as stated. -/
theorem token_in_output_counterexample :
    format_output (some "A".toList) (some "%artist%".toList)
      100 100 100 "%artist%: %title%".toList "...".toList false =
      FormatOut.ok "A: %artist%".toList ∧
    TOKEN_ARTIST <:+: "A: %artist%".toList := by decide

/-- Claim C9, amended: each substitution pass is literal, all-occurrences,
left-to-right and non-recursive — a string without the token is unchanged,
and at the leftmost occurrence the pass emits the replacement and continues
on the remainder only, never rescanning the replacement text within that
pass; occurrences of a token literal can remain in the output when the
substituted values themselves contain token text. -/
theorem str_replace_all_left_to_right :
    (∀ s tok repl : Str, ¬ tok <:+: s → str_replace_all s tok repl = s) ∧
    (∀ tok repl a b : Str, tok ≠ [] →
      (∀ i, i < a.length → ¬ tok <+: (a ++ tok ++ b).drop i) →
      str_replace_all (a ++ tok ++ b) tok repl =
        a ++ (repl ++ str_replace_all b tok repl)) :=
  ⟨str_replace_all_unchanged,
   fun tok repl a b htok H => str_replace_all_append_first tok repl htok a b H⟩

/-- Witness for C9's amended statement: an unchanged token-free string, and a
leftmost-occurrence replacement that resumes after the matched token. -/
theorem str_replace_all_left_to_right_witness :
    str_replace_all "abc".toList "x".toList "y".toList = "abc".toList ∧
    str_replace_all ("ab".toList ++ "xy".toList ++ "zxyw".toList)
        "xy".toList "Q".toList =
      "ab".toList ++
        ("Q".toList ++ str_replace_all "zxyw".toList "xy".toList "Q".toList) :=
  ⟨str_replace_all_left_to_right.1 _ _ _ (by decide),
   str_replace_all_left_to_right.2 _ _ _ _ (by decide) (by decide)⟩

/-- Claim C10: `format_output` requires both fields to be present strings —
a null artist or title reaches `strlen` unconditionally (undefined
behaviour), so the placeholder path can only be taken when both are present
and empty; and `get_status` passes the raw, possibly-null extraction results
unconverted, so a reply from which neither field can be extracted drives the
pipeline into that undefined behaviour. -/
theorem format_output_requires_present_strings :
    (∀ (t : Option Str) (mal mtl ml : Nat) (f tr : Str) (sup : Bool),
      format_output none t mal mtl ml f tr sup = FormatOut.ub) ∧
    (∀ (a : Str) (mal mtl ml : Nat) (f tr : Str) (sup : Bool),
      format_output (some a) none mal mtl ml f tr sup = FormatOut.ub) ∧
    (∀ (mal mtl ml : Nat) (f tr : Str) (sup : Bool),
      get_status_format (Node.prim []) mal mtl ml f tr sup = FormatOut.ub) := by
  refine ⟨?_, ?_, ?_⟩
  · intro t mal mtl ml f tr sup
    cases t <;> rfl
  · intro a mal mtl ml f tr sup
    rfl
  · intro mal mtl ml f tr sup
    rfl

/-- Claim C7: extraction succeeds exactly on the documented shape — a variant
wrapping an array whose scanned dict entry for the target key holds a variant
wrapping a string (for the title), with one additional array unwrap whose
first element must be a string (for the artist); in every other case,
including a missing key, a wrong wrapper, a non-string terminal or an empty
artist array, the extractors return `none` and never an error (they are total
functions into `Option`). -/
theorem metadata_extraction_shape (msg : Node) (t a : Str) :
    (get_song_title_from_metadata msg = some t ↔
      ∃ entries, msg = Node.variant (Node.sequence entries) ∧
        find_dict_key entries METADATA_TITLE_KEY =
          some (Node.variant (Node.prim t))) ∧
    (get_song_artist_from_metadata msg = some a ↔
      ∃ entries rest, msg = Node.variant (Node.sequence entries) ∧
        find_dict_key entries METADATA_ARTIST_KEY =
          some (Node.variant (Node.sequence (Node.prim a :: rest)))) := by
  constructor
  · constructor
    · intro h
      unfold get_song_title_from_metadata at h
      split at h
      · rename_i entries
        split at h
        · rename_i s hfind
          cases h
          exact ⟨entries, rfl, hfind⟩
        · cases h
      · cases h
    · rintro ⟨entries, rfl, hf⟩
      simp only [get_song_title_from_metadata]
      rw [hf]
  · constructor
    · intro h
      unfold get_song_artist_from_metadata at h
      split at h
      · rename_i entries
        split at h
        · rename_i s rest hfind
          cases h
          exact ⟨entries, rest, rfl, hfind⟩
        · cases h
      · cases h
    · rintro ⟨entries, rest, rfl, hf⟩
      simp only [get_song_artist_from_metadata]
      rw [hf]
